import Mathlib

/-!
Shallow embedding of the Connected Car Telemetry Dashboard backend
(`Server.py`): the per-vehicle telemetry simulator, the threshold alert
evaluator, the websocket connection manager (broadcast hub) and the
per-connection simulation/broadcast loop.

Python floats are modelled as exact rationals (`ℚ`); wall-clock datetimes are
modelled as rational seconds since an arbitrary epoch; randomness is modelled
by passing the drawn values explicitly as inputs; `await`-able fallible
operations (database inserts, `send_text`) are modelled with `Except`, and a
Python `try/except` around them catches the `.error` case.
-/

/-- `TelemetryData` (Server.py): one immutable telemetry sample.  The `id`
field (a fresh UUID) plays no role in any behavior modelled here and is
omitted; timestamps are rational seconds. -/
structure TelemetryData where
  vehicle_id : String
  speed : ℚ
  engine_rpm : ℚ
  fuel_level : ℚ
  engine_temperature : ℚ
  latitude : ℚ
  longitude : ℚ
  timestamp : ℚ
deriving Repr, DecidableEq

/-- `TelemetryAlert` (Server.py). -/
structure TelemetryAlert where
  vehicle_id : String
  metric : String
  value : ℚ
  threshold : ℚ
  severity : String
  message : String
deriving Repr, DecidableEq

/-- One `{max, min}` entry of the threshold table. -/
structure Threshold where
  max : ℚ
  min : ℚ
deriving Repr, DecidableEq

/-- `TELEMETRY_THRESHOLDS` (Server.py): an insertion-ordered dict, modelled as
the association list in its insertion order. -/
def TELEMETRY_THRESHOLDS : List (String × Threshold) :=
  [("speed", ⟨120, 0⟩),
   ("engine_rpm", ⟨6000, 800⟩),
   ("fuel_level", ⟨100, 10⟩),
   ("engine_temperature", ⟨100, 80⟩)]

/-- `getattr(telemetry, metric)` for the four monitored metric names (the only
names it is called with; other names would raise in Python and are mapped to a
junk value here). -/
def metricValue (t : TelemetryData) (metric : String) : ℚ :=
  if metric = "speed" then t.speed
  else if metric = "engine_rpm" then t.engine_rpm
  else if metric = "fuel_level" then t.fuel_level
  else if metric = "engine_temperature" then t.engine_temperature
  else 0

/-- Python `str.title()` restricted to the inputs occurring here (lower-case
words separated by single spaces): capitalize each word. -/
def pyTitle (s : String) : String :=
  String.intercalate " " ((s.splitOn " ").map String.capitalize)

/-- The f-string `f"{metric.replace('_', ' ').title()} is critically high: {value}"`.
Numeric formatting of the value is abstracted by `toString` on `ℚ`. -/
def highMessage (metric : String) (value : ℚ) : String :=
  pyTitle (metric.replace "_" " ") ++ " is critically high: " ++ toString value

/-- The f-string `f"{metric.replace('_', ' ').title()} is critically low: {value}"`. -/
def lowMessage (metric : String) (value : ℚ) : String :=
  pyTitle (metric.replace "_" " ") ++ " is critically low: " ++ toString value

/-- The body of the `for metric, thresholds in TELEMETRY_THRESHOLDS.items()`
loop in `check_telemetry_alerts`: appends at most one alert for this metric. -/
def checkStep (t : TelemetryData) (alerts : List TelemetryAlert)
    (entry : String × Threshold) : List TelemetryAlert :=
  let metric := entry.1
  let thresholds := entry.2
  let value := metricValue t metric
  if value > thresholds.max then
    alerts ++ [{ vehicle_id := t.vehicle_id, metric := metric, value := value,
                 threshold := thresholds.max,
                 severity := if value > thresholds.max * 1.2 then "high" else "medium",
                 message := highMessage metric value }]
  else if value < thresholds.min then
    alerts ++ [{ vehicle_id := t.vehicle_id, metric := metric, value := value,
                 threshold := thresholds.min,
                 severity := if value < thresholds.min * 0.8 then "high" else "medium",
                 message := lowMessage metric value }]
  else alerts

/-- `check_telemetry_alerts` (Server.py): fold the per-metric loop body over
the threshold table, starting from the empty alert list. -/
def check_telemetry_alerts (telemetry : TelemetryData) : List TelemetryAlert :=
  TELEMETRY_THRESHOLDS.foldl (checkStep telemetry) []

/-- The spec's per-metric alert rule (§4.2): `value > max` gives severity
`high` when `value > max × 1.2` and `medium` otherwise; `value < min` gives
`high` when `value < min × 0.8` and `medium` otherwise; in range gives no
alert.  Written from the spec's words, to be compared with
`check_telemetry_alerts`. -/
def ruleAlert (vid metric : String) (value mn mx : ℚ) : Option TelemetryAlert :=
  if value > mx then
    some { vehicle_id := vid, metric := metric, value := value, threshold := mx,
           severity := if value > mx * 1.2 then "high" else "medium",
           message := highMessage metric value }
  else if value < mn then
    some { vehicle_id := vid, metric := metric, value := value, threshold := mn,
           severity := if value < mn * 0.8 then "high" else "medium",
           message := lowMessage metric value }
  else none

/-- The spec's alert evaluator: the four monitored metrics in the fixed order
speed, RPM, fuel, temperature, each contributing at most one alert. -/
def checkRule (t : TelemetryData) : List TelemetryAlert :=
  [ruleAlert t.vehicle_id "speed" t.speed 0 120,
   ruleAlert t.vehicle_id "engine_rpm" t.engine_rpm 800 6000,
   ruleAlert t.vehicle_id "fuel_level" t.fuel_level 10 100,
   ruleAlert t.vehicle_id "engine_temperature" t.engine_temperature 80 100].filterMap id

/-- `VehicleState` — one entry of the `vehicle_states` dict (Server.py):
mutable per-vehicle simulation state. -/
structure VehicleState where
  speed : ℚ
  engine_rpm : ℚ
  fuel_level : ℚ
  engine_temperature : ℚ
  latitude : ℚ
  longitude : ℚ
  direction : ℚ
  last_update : ℚ
deriving Repr, DecidableEq

/-- The random draws of one call to `initialize_vehicle_state`. -/
structure InitRand where
  speed_r : ℚ      -- random.uniform(60, 80)
  rpm_r : ℚ        -- random.uniform(1500, 2500)
  fuel_r : ℚ       -- random.uniform(50, 100)
  temp_r : ℚ       -- random.uniform(85, 95)
  lat_r : ℚ        -- random.uniform(-0.1, 0.1)
  lng_r : ℚ        -- random.uniform(-0.1, 0.1)
  dir_r : ℚ        -- random.uniform(0, 360)
deriving Repr, DecidableEq

/-- `initialize_vehicle_state` (Server.py), with the random draws and the
current time passed explicitly. -/
def initialize_vehicle_state (r : InitRand) (now : ℚ) : VehicleState :=
  { speed := r.speed_r, engine_rpm := r.rpm_r, fuel_level := r.fuel_r,
    engine_temperature := r.temp_r,
    latitude := 37.7749 + r.lat_r, longitude := -122.4194 + r.lng_r,
    direction := r.dir_r, last_update := now }

/-- The environment of one call to `simulate_realistic_telemetry`: the current
wall-clock time, the random draws, and the values of `math.cos`/`math.sin` at
the (old) direction, which are irrational and therefore passed as inputs. -/
structure SimEnv where
  current_time : ℚ  -- datetime.now(timezone.utc)
  speed_noise : ℚ   -- random.uniform(-5, 5)
  rpm_noise : ℚ     -- random.uniform(-200, 200)
  turn_roll : ℚ     -- random.random(), in [0, 1)
  turn_noise : ℚ    -- random.uniform(-30, 30)
  cos_dir : ℚ       -- math.cos(math.radians(direction))
  sin_dir : ℚ       -- math.sin(math.radians(direction))
deriving Repr, DecidableEq

/-- Python `max(a, b)`: the second argument replaces the first only when it
is strictly larger. -/
def pymax (a b : ℚ) : ℚ := if a < b then b else a

/-- Python `min(a, b)`: the second argument replaces the first only when it
is strictly smaller. -/
def pymin (a b : ℚ) : ℚ := if b < a then b else a

/-- Python float `%` with a positive modulus: `a - b * ⌊a / b⌋`, which lies in
`[0, b)` for `b > 0` (the sign follows the divisor). -/
def pymod (a b : ℚ) : ℚ := a - b * ⌊a / b⌋

/-- Round half to even (Python 3 `round` semantics, exact over `ℚ`). -/
def roundHalfEven (y : ℚ) : ℤ :=
  let f := y - ⌊y⌋
  if f < 1/2 then ⌊y⌋
  else if 1/2 < f then ⌊y⌋ + 1
  else if ⌊y⌋ % 2 = 0 then ⌊y⌋ else ⌊y⌋ + 1

/-- Python `round(x, ndigits)` modelled exactly over `ℚ`. -/
def pyRound (x : ℚ) (ndigits : ℕ) : ℚ :=
  let m : ℚ := (10 : ℚ) ^ ndigits
  (roundHalfEven (x * m) : ℚ) / m

/-- `simulate_realistic_telemetry` (Server.py): advances one vehicle's state
by the elapsed time and returns the updated state (the in-place mutation of
the Python dict) together with the emitted `TelemetryData` sample. -/
def simulate_realistic_telemetry (vehicle_id : String) (state : VehicleState)
    (env : SimEnv) : VehicleState × TelemetryData :=
  let time_diff := env.current_time - state.last_update
  -- Speed simulation with traffic patterns
  let speed_change := env.speed_noise * time_diff
  let speed := pymax 0 (pymin 140 (state.speed + speed_change))
  -- RPM correlates with speed
  let target_rpm := speed * 35 + env.rpm_noise
  let engine_rpm := pymax 800 (pymin 6500 target_rpm)
  -- Fuel consumption based on speed and RPM
  let fuel_consumption_rate := (speed * 0.001 + engine_rpm * 0.0001) * time_diff
  let fuel_level := pymax 0 (state.fuel_level - fuel_consumption_rate)
  -- Engine temperature simulation
  let temp_target := 90 + (engine_rpm - 2000) * 0.005
  let temp_change := (temp_target - state.engine_temperature) * 0.1 * time_diff
  let engine_temperature := pymax 70 (pymin 120 (state.engine_temperature + temp_change))
  -- GPS movement simulation (cos/sin taken at the pre-update direction)
  let movement_distance := speed * time_diff / 3600 / 111
  let latitude := state.latitude + movement_distance * env.cos_dir
  let longitude := state.longitude + movement_distance * env.sin_dir
  -- Occasional direction changes
  let direction :=
    if env.turn_roll < 0.1 then pymod (state.direction + env.turn_noise) 360
    else state.direction
  let state' : VehicleState :=
    { speed := speed, engine_rpm := engine_rpm, fuel_level := fuel_level,
      engine_temperature := engine_temperature, latitude := latitude,
      longitude := longitude, direction := direction,
      last_update := env.current_time }
  (state',
   { vehicle_id := vehicle_id,
     speed := pyRound speed 1,
     engine_rpm := pyRound engine_rpm 0,
     fuel_level := pyRound fuel_level 1,
     engine_temperature := pyRound engine_temperature 1,
     latitude := pyRound latitude 6,
     longitude := pyRound longitude 6,
     timestamp := env.current_time })

/-- One websocket viewer connection: an opaque handle (`id`) together with
whether `send_text` on it succeeds for the message being broadcast. -/
structure Connection where
  id : ℕ
  send_ok : Bool
deriving Repr, DecidableEq

/-- `ConnectionManager` (Server.py): the list of accepted websocket
connections, in registration order. -/
structure ConnectionManager where
  active_connections : List Connection
deriving Repr, DecidableEq

/-- `connection.send_text(...)`: succeeds or raises, per the handle. -/
def sendText (c : Connection) : Except String Unit :=
  if c.send_ok then .ok () else .error "send failed"

/-- The body of the `for connection in self.active_connections` loop of
`ConnectionManager.broadcast`: `try: await connection.send_text(...)` and
`except: pass`.  The accumulator records the connections whose send
succeeded. -/
def broadcastStep (delivered : List Connection) (c : Connection) :
    Except String (List Connection) :=
  match sendText c with
  | .ok _ => .ok (delivered ++ [c])
  | .error _ => .ok delivered   -- except: pass

/-- `ConnectionManager.broadcast` (Server.py).  The message argument is the
dict being `json.dumps`-ed and sent; its content does not influence control
flow.  Returns the list of connections that received the message, or an error
if an exception escaped the loop. -/
def broadcast (m : ConnectionManager) : Except String (List Connection) :=
  m.active_connections.foldlM broadcastStep []

/-- Python `list.remove(x)`: drop the first occurrence of `x`, raising
`ValueError` when `x` is absent. -/
def listRemove {α : Type} [DecidableEq α] : List α → α → Except String (List α)
  | [], _ => .error "ValueError: list.remove(x): x not in list"
  | y :: ys, x => if y = x then .ok ys else (listRemove ys x).map (y :: ·)

/-- `ConnectionManager.disconnect` (Server.py):
`self.active_connections.remove(websocket)`. -/
def ConnectionManager.disconnect (m : ConnectionManager) (w : Connection) :
    Except String ConnectionManager :=
  (listRemove m.active_connections w).map ConnectionManager.mk

/-- One vehicle document of the `vehicles` Mongo collection, restricted to
the fields the simulation loop and `delete_vehicle` consume. -/
structure VehicleRec where
  id : String
  is_active : Bool
deriving Repr, DecidableEq

/-- `db.vehicles.find({"is_active": True}).to_list(100)`: the active vehicles
in collection order, capped at 100 documents.  Used by both `get_vehicles` and
the websocket loop. -/
def fetch_active_vehicles (vehicles : List VehicleRec) : List VehicleRec :=
  (vehicles.filter (fun v => v.is_active)).take 100

/-- `get_vehicles` (GET /vehicles, Server.py): the same capped active query. -/
def get_vehicles (vehicles : List VehicleRec) : List VehicleRec :=
  fetch_active_vehicles vehicles

/-- `db.vehicles.update_one({"id": vid}, {"$set": {"is_active": False}})`:
deactivate the first document whose `id` matches, reporting whether one
matched. -/
def setInactiveFirst : List VehicleRec → String → List VehicleRec × Bool
  | [], _ => ([], false)
  | v :: vs, vid =>
      if v.id = vid then ({ v with is_active := false } :: vs, true)
      else
        let r := setInactiveFirst vs vid
        (v :: r.1, r.2)

/-- Lookup in the `vehicle_states` dict, modelled as an association list in
insertion order (Python dict keys are unique). -/
def dictLookup (m : List (String × VehicleState)) (k : String) :
    Option VehicleState :=
  (m.find? (fun p => p.1 = k)).map Prod.snd

/-- `vehicle_states[k] = v`: replace the value at an existing key, else append. -/
def dictInsert (m : List (String × VehicleState)) (k : String)
    (v : VehicleState) : List (String × VehicleState) :=
  if (m.find? (fun p => p.1 = k)).isSome then
    m.map (fun p => if p.1 = k then (k, v) else p)
  else m ++ [(k, v)]

/-- `del vehicle_states[k]` (keys are unique, so dropping every pair at `k`
is the removal of the one entry). -/
def dictDelete (m : List (String × VehicleState)) (k : String) :
    List (String × VehicleState) :=
  m.filter (fun p => ¬ p.1 = k)

/-- The whole-server state touched by `delete_vehicle` and the websocket
loop: the Mongo `vehicles` collection and the global `vehicle_states` dict. -/
structure ServerState where
  vehicles : List VehicleRec
  vehicle_states : List (String × VehicleState)
deriving Repr, DecidableEq

/-- `delete_vehicle` (DELETE /vehicles/{id}, Server.py): soft-delete the
vehicle in Mongo (404 when no document matches), then drop its simulation
state if present. -/
def delete_vehicle (s : ServerState) (vid : String) : Except String ServerState :=
  let r := setInactiveFirst s.vehicles vid
  if r.2 then
    .ok { vehicles := r.1,
          vehicle_states :=
            if (dictLookup s.vehicle_states vid).isSome then
              dictDelete s.vehicle_states vid
            else s.vehicle_states }
  else .error "404 Vehicle not found"

/-- The per-tick environment of the websocket loop body: the wall-clock time
used for the batch message, and per-vehicle oracles for the randomness of
`initialize_vehicle_state` / `simulate_realistic_telemetry` and for whether
`db.telemetry.insert_one` succeeds for that vehicle's sample. -/
structure TickEnv where
  batch_time : ℚ
  init_rand : String → InitRand
  sim_env : String → SimEnv
  insert_ok : String → Bool

/-- The accumulator of one tick of the websocket loop: the `vehicle_states`
dict plus the `all_telemetry` and `all_alerts` lists. -/
structure TickResult where
  states : List (String × VehicleState)
  all_telemetry : List TelemetryData
  all_alerts : List TelemetryAlert
deriving Repr

/-- The body of the `for vehicle_data in vehicles` loop in
`websocket_telemetry`: initialize missing state, simulate, insert the sample
into Mongo (an uncaught exception propagates as `.error`), evaluate alerts,
and extend the accumulators. -/
def processVehicle (env : TickEnv) (acc : TickResult) (v : VehicleRec) :
    Except String TickResult :=
  let s0 := match dictLookup acc.states v.id with
    | some s => s
    | none => initialize_vehicle_state (env.init_rand v.id) (env.sim_env v.id).current_time
  let r := simulate_realistic_telemetry v.id s0 (env.sim_env v.id)
  let states' := dictInsert acc.states v.id r.1
  if env.insert_ok v.id then
    .ok { states := states',
          all_telemetry := acc.all_telemetry ++ [r.2],
          all_alerts := acc.all_alerts ++ check_telemetry_alerts r.2 }
  else .error ("insert_one failed for " ++ v.id)

/-- The batch message assembled each tick (`message = {...}` in
`websocket_telemetry`). -/
structure Message where
  type : String
  timestamp : ℚ
  data : List TelemetryData
  alerts : List TelemetryAlert
deriving Repr

/-- One tick of the `while True` body of `websocket_telemetry`, up to and
including assembling the batch message: fetch the capped active-vehicle set,
process each vehicle, and build the message.  An exception anywhere in the
body (only the per-vehicle insert can raise here) propagates. -/
def websocket_tick (vehicles : List VehicleRec)
    (states : List (String × VehicleState)) (env : TickEnv) :
    Except String (TickResult × Message) := do
  let active := fetch_active_vehicles vehicles
  let r ← active.foldlM (processVehicle env)
    { states := states, all_telemetry := [], all_alerts := [] }
  .ok (r, { type := "telemetry_update", timestamp := env.batch_time,
            data := r.all_telemetry, alerts := r.all_alerts })

/-- One full iteration of the `while True` loop of `websocket_telemetry`: the
tick followed by the single `manager.broadcast(message)` call.  The second
component records the messages passed to `broadcast` during the iteration
(the publish trace) and the third the connections that received them. -/
def websocket_loop_iteration (vehicles : List VehicleRec)
    (states : List (String × VehicleState)) (env : TickEnv)
    (m : ConnectionManager) :
    Except String (TickResult × List Message × List Connection) := do
  let tr ← websocket_tick vehicles states env
  let delivered ← broadcast m
  .ok (tr.1, [tr.2], delivered)

/-- The simulation loop exists only as the body of the per-connection
`websocket_telemetry` handler (`@app.websocket("/ws/telemetry")`): one loop
instance runs per attached websocket connection, so the number of running
tick loops equals the number of connections — in particular zero when no
viewer is attached. -/
def running_tick_loops (m : ConnectionManager) : ℕ :=
  m.active_connections.length

/-- The concrete sample used by the C9 witness: speed 145, other metrics
nominal. -/
def sampleC9 : TelemetryData :=
  { vehicle_id := "v9", speed := 145, engine_rpm := 2000, fuel_level := 50,
    engine_temperature := 90, latitude := 0, longitude := 0, timestamp := 0 }

/-- The alert `check_telemetry_alerts` produces for `sampleC9`. -/
def alertC9 : TelemetryAlert :=
  { vehicle_id := "v9", metric := "speed", value := 145, threshold := 120,
    severity := "high", message := highMessage "speed" 145 }

/-- Removal of the first occurrence of an element (the successful branch of
Python `list.remove`), for stating what `disconnect` does when the element is
present. -/
def eraseFirst {α : Type} [DecidableEq α] : List α → α → List α
  | [], _ => []
  | y :: ys, x => if y = x then ys else y :: eraseFirst ys x

/-- A nominal in-range vehicle state used by the concrete witnesses. -/
def stateW : VehicleState :=
  { speed := 70, engine_rpm := 2000, fuel_level := 80, engine_temperature := 90,
    latitude := 37, longitude := -122, direction := 45, last_update := 0 }

/-- A simulation environment with one second elapsed, used by witnesses. -/
def envW : SimEnv :=
  { current_time := 1, speed_noise := 1, rpm_noise := 100, turn_roll := 1/2,
    turn_noise := 10, cos_dir := 1/2, sin_dir := 1/2 }

/-- A zero-elapsed-time environment (`current_time` equal to `stateW`'s
`last_update`) with the maximal speed-noise draw `+5`. -/
def envZhi : SimEnv :=
  { current_time := 0, speed_noise := 5, rpm_noise := 100, turn_roll := 1/2,
    turn_noise := 10, cos_dir := 1/2, sin_dir := 1/2 }

/-- The same zero-elapsed-time environment with the minimal speed-noise
draw `-5`. -/
def envZlo : SimEnv := { envZhi with speed_noise := -5 }

/-- A per-tick environment whose database inserts all succeed. -/
def tickEnvOk : TickEnv :=
  { batch_time := 0,
    init_rand := fun _ => ⟨70, 2000, 80, 90, 0, 0, 45⟩,
    sim_env := fun _ => envW,
    insert_ok := fun _ => true }

/-- A per-tick environment whose database inserts all fail. -/
def tickEnvBad : TickEnv :=
  { batch_time := 0,
    init_rand := fun _ => ⟨70, 2000, 80, 90, 0, 0, 45⟩,
    sim_env := fun _ => envW,
    insert_ok := fun _ => false }

/-- A concrete two-vehicle server state used by the C8 witness. -/
def serverW : ServerState :=
  { vehicles := [⟨"a", true⟩, ⟨"b", true⟩],
    vehicle_states := [("a", stateW), ("b", stateW)] }

/-! ## Helper lemmas about the alert evaluator -/

lemma metricValue_speed (t : TelemetryData) : metricValue t "speed" = t.speed := rfl

lemma metricValue_rpm (t : TelemetryData) :
    metricValue t "engine_rpm" = t.engine_rpm := rfl

lemma metricValue_fuel (t : TelemetryData) :
    metricValue t "fuel_level" = t.fuel_level := rfl

lemma metricValue_temp (t : TelemetryData) :
    metricValue t "engine_temperature" = t.engine_temperature := rfl

/-- The loop body of `check_telemetry_alerts` appends exactly the spec rule's
optional alert for that metric. -/
lemma checkStep_eq (t : TelemetryData) (acc : List TelemetryAlert)
    (metric : String) (th : Threshold) :
    checkStep t acc (metric, th) =
      acc ++ (ruleAlert t.vehicle_id metric (metricValue t metric) th.min th.max).toList := by
  unfold checkStep ruleAlert
  simp only [gt_iff_lt]
  split_ifs <;> simp

lemma filterMap_id_four {α : Type} (a b c d : Option α) :
    List.filterMap id [a, b, c, d] = a.toList ++ (b.toList ++ (c.toList ++ d.toList)) := by
  cases a <;> cases b <;> cases c <;> cases d <;> rfl

/-- The code's evaluator coincides with the spec's rule. -/
lemma check_eq_rule (t : TelemetryData) : check_telemetry_alerts t = checkRule t := by
  show TELEMETRY_THRESHOLDS.foldl (checkStep t) [] = checkRule t
  simp only [TELEMETRY_THRESHOLDS, List.foldl_cons, List.foldl_nil, checkStep_eq,
    metricValue_speed, metricValue_rpm, metricValue_fuel, metricValue_temp,
    checkRule, filterMap_id_four, List.nil_append, List.append_assoc]

/-- Every alert the rule can produce carries severity `medium` or `high`. -/
lemma ruleAlert_severity (vid metric : String) (v mn mx : ℚ) (a : TelemetryAlert)
    (h : a ∈ (ruleAlert vid metric v mn mx).toList) :
    a.severity = "medium" ∨ a.severity = "high" := by
  unfold ruleAlert at h
  split_ifs at h <;> simp_all

/-! ## Claims about the alert evaluator -/

/-- C7: `check_telemetry_alerts` returns exactly the alerts of the spec's
per-metric rule, iterating speed, RPM, fuel, temperature in that order, with
high/low breaches mutually exclusive per metric and severity `high` exactly
beyond the ×1.2 / ×0.8 bands; in particular a sample with speed 145 (all
other metrics nominal) yields exactly one speed alert of severity `high`. -/
theorem claim_C7_alert_rule (t : TelemetryData) :
    check_telemetry_alerts t = checkRule t ∧
    check_telemetry_alerts
        { vehicle_id := "v7", speed := 145, engine_rpm := 2000, fuel_level := 50,
          engine_temperature := 90, latitude := 0, longitude := 0, timestamp := 0 } =
      [{ vehicle_id := "v7", metric := "speed", value := 145, threshold := 120,
         severity := "high", message := highMessage "speed" 145 }] := by
  refine ⟨check_eq_rule t, ?_⟩
  rw [check_eq_rule]
  norm_num [checkRule, ruleAlert, List.filterMap_cons, List.filterMap_nil]

/-- C9: every alert the evaluator returns has severity `medium` or `high`;
the declared severity `low` is never produced. -/
theorem claim_C9_severity_never_low (t : TelemetryData) (a : TelemetryAlert)
    (h : a ∈ check_telemetry_alerts t) :
    a.severity = "medium" ∨ a.severity = "high" := by
  rw [check_eq_rule] at h
  simp only [checkRule, List.mem_filterMap, id_eq, List.mem_cons,
    List.not_mem_nil, or_false] at h
  obtain ⟨o, ho, hoa⟩ := h
  have ha : a ∈ o.toList := by cases o <;> simp_all
  rcases ho with rfl | rfl | rfl | rfl <;>
    exact ruleAlert_severity _ _ _ _ _ a ha

theorem claim_C9_severity_never_low_witness :
    alertC9 ∈ check_telemetry_alerts sampleC9 ∧
      (alertC9.severity = "medium" ∨ alertC9.severity = "high") :=
  ⟨by rw [check_eq_rule]; norm_num [checkRule, ruleAlert, sampleC9, alertC9, List.filterMap_cons, List.filterMap_nil],
   claim_C9_severity_never_low sampleC9 alertC9
     (by rw [check_eq_rule]; norm_num [checkRule, ruleAlert, sampleC9, alertC9, List.filterMap_cons, List.filterMap_nil])⟩

/-! ## Helper lemmas about the simulator -/

lemma pymod_eq_mul_fract (a b : ℚ) (hb : b ≠ 0) :
    pymod a b = b * Int.fract (a / b) := by
  unfold pymod Int.fract
  field_simp

lemma pymod_nonneg (a b : ℚ) (hb : 0 < b) : 0 ≤ pymod a b := by
  rw [pymod_eq_mul_fract a b hb.ne.symm]
  exact mul_nonneg hb.le (Int.fract_nonneg _)

lemma pymod_lt (a b : ℚ) (hb : 0 < b) : pymod a b < b := by
  rw [pymod_eq_mul_fract a b hb.ne.symm]
  calc b * Int.fract (a / b) < b * 1 :=
        mul_lt_mul_of_pos_left (Int.fract_lt_one _) hb
    _ = b := mul_one b

lemma pymax_eq (a b : ℚ) : pymax a b = max a b := by
  unfold pymax
  rcases lt_or_le a b with h | h
  · rw [if_pos h, max_eq_right h.le]
  · rw [if_neg (not_lt.mpr h), max_eq_left h]

lemma pymin_eq (a b : ℚ) : pymin a b = min a b := by
  unfold pymin
  rcases lt_or_le b a with h | h
  · rw [if_pos h, min_eq_right h.le]
  · rw [if_neg (not_lt.mpr h), min_eq_left h]

/-! ## Claims about the simulator -/

/-- C5: for every state whose fields lie in their valid ranges and every
elapsed time `dt ≥ 0`, one `simulate_realistic_telemetry` step keeps speed in
[0,140], RPM in [800,6500], fuel ≥ 0, temperature in [70,120] and heading in
[0,360). -/
theorem claim_C5_step_ranges (vid : String) (state : VehicleState) (env : SimEnv)
    (hsp : 0 ≤ state.speed ∧ state.speed ≤ 140)
    (hrpm : 800 ≤ state.engine_rpm ∧ state.engine_rpm ≤ 6500)
    (hfuel : 0 ≤ state.fuel_level)
    (htemp : 70 ≤ state.engine_temperature ∧ state.engine_temperature ≤ 120)
    (hdir : 0 ≤ state.direction ∧ state.direction < 360)
    (hdt : 0 ≤ env.current_time - state.last_update) :
    (0 ≤ ((simulate_realistic_telemetry vid state env).1).speed ∧
      ((simulate_realistic_telemetry vid state env).1).speed ≤ 140) ∧
    (800 ≤ ((simulate_realistic_telemetry vid state env).1).engine_rpm ∧
      ((simulate_realistic_telemetry vid state env).1).engine_rpm ≤ 6500) ∧
    0 ≤ ((simulate_realistic_telemetry vid state env).1).fuel_level ∧
    (70 ≤ ((simulate_realistic_telemetry vid state env).1).engine_temperature ∧
      ((simulate_realistic_telemetry vid state env).1).engine_temperature ≤ 120) ∧
    (0 ≤ ((simulate_realistic_telemetry vid state env).1).direction ∧
      ((simulate_realistic_telemetry vid state env).1).direction < 360) := by
  simp only [simulate_realistic_telemetry, pymax_eq, pymin_eq]
  refine ⟨⟨le_max_left _ _, max_le (by norm_num) (min_le_left _ _)⟩,
          ⟨le_max_left _ _, max_le (by norm_num) (min_le_left _ _)⟩,
          le_max_left _ _,
          ⟨le_max_left _ _, max_le (by norm_num) (min_le_left _ _)⟩,
          ?_, ?_⟩
  · split_ifs
    · exact pymod_nonneg _ _ (by norm_num)
    · exact hdir.1
  · split_ifs
    · exact pymod_lt _ _ (by norm_num)
    · exact hdir.2

theorem claim_C5_step_ranges_witness :
    ((0 ≤ stateW.speed ∧ stateW.speed ≤ 140) ∧
     (800 ≤ stateW.engine_rpm ∧ stateW.engine_rpm ≤ 6500) ∧
     0 ≤ stateW.fuel_level ∧
     (70 ≤ stateW.engine_temperature ∧ stateW.engine_temperature ≤ 120) ∧
     (0 ≤ stateW.direction ∧ stateW.direction < 360) ∧
     0 ≤ envW.current_time - stateW.last_update) ∧
    ((0 ≤ ((simulate_realistic_telemetry "v5" stateW envW).1).speed ∧
      ((simulate_realistic_telemetry "v5" stateW envW).1).speed ≤ 140) ∧
    (800 ≤ ((simulate_realistic_telemetry "v5" stateW envW).1).engine_rpm ∧
      ((simulate_realistic_telemetry "v5" stateW envW).1).engine_rpm ≤ 6500) ∧
    0 ≤ ((simulate_realistic_telemetry "v5" stateW envW).1).fuel_level ∧
    (70 ≤ ((simulate_realistic_telemetry "v5" stateW envW).1).engine_temperature ∧
      ((simulate_realistic_telemetry "v5" stateW envW).1).engine_temperature ≤ 120) ∧
    (0 ≤ ((simulate_realistic_telemetry "v5" stateW envW).1).direction ∧
      ((simulate_realistic_telemetry "v5" stateW envW).1).direction < 360)) :=
  ⟨by norm_num [stateW, envW],
   claim_C5_step_ranges "v5" stateW envW (by norm_num [stateW])
     (by norm_num [stateW]) (by norm_num [stateW]) (by norm_num [stateW])
     (by norm_num [stateW]) (by norm_num [stateW, envW])⟩

/-- C6 counterexample: the claim says speed "may still change" at `dt = 0`
because its direct noise term is still applied; but the speed noise is scaled
by `dt`, so even the extreme draws `+5` and `-5` leave the speed of the
in-range state `stateW` exactly unchanged on a zero-`dt` step. -/
theorem claim_C6_counterexample :
    ((simulate_realistic_telemetry "v6" stateW envZhi).1).speed = stateW.speed ∧
    ((simulate_realistic_telemetry "v6" stateW envZlo).1).speed = stateW.speed := by
  norm_num [simulate_realistic_telemetry, pymax, pymin, stateW, envZhi, envZlo]

/-- C6 (amended): on a zero-`dt` step from an in-range state, fuel and
temperature are unchanged, speed is also unchanged (its noise term is
multiplied by `dt`), and only the RPM is re-rolled: it becomes the fresh
target `clamp(speed × 35 + noise, 800, 6500)` and may change. -/
theorem claim_C6_zero_dt (vid : String) (state : VehicleState) (env : SimEnv)
    (hdt : env.current_time = state.last_update)
    (hsp : 0 ≤ state.speed ∧ state.speed ≤ 140)
    (hfuel : 0 ≤ state.fuel_level)
    (htemp : 70 ≤ state.engine_temperature ∧ state.engine_temperature ≤ 120) :
    ((simulate_realistic_telemetry vid state env).1).fuel_level = state.fuel_level ∧
    ((simulate_realistic_telemetry vid state env).1).engine_temperature =
      state.engine_temperature ∧
    ((simulate_realistic_telemetry vid state env).1).speed = state.speed ∧
    ((simulate_realistic_telemetry vid state env).1).engine_rpm =
      max 800 (min 6500 (state.speed * 35 + env.rpm_noise)) := by
  have hz : env.current_time - state.last_update = 0 := by rw [hdt, sub_self]
  have hspeed : max 0 (min 140 state.speed) = state.speed := by
    rw [min_eq_right hsp.2, max_eq_right hsp.1]
  have htempe : max 70 (min 120 state.engine_temperature) =
      state.engine_temperature := by
    rw [min_eq_right htemp.2, max_eq_right htemp.1]
  simp only [simulate_realistic_telemetry, pymax_eq, pymin_eq, hz, mul_zero,
    zero_mul, sub_zero, add_zero, hspeed, htempe]
  exact ⟨max_eq_right hfuel, trivial, trivial, trivial⟩

theorem claim_C6_zero_dt_witness :
    (envZhi.current_time = stateW.last_update ∧
     (0 ≤ stateW.speed ∧ stateW.speed ≤ 140) ∧
     0 ≤ stateW.fuel_level ∧
     (70 ≤ stateW.engine_temperature ∧ stateW.engine_temperature ≤ 120)) ∧
    (((simulate_realistic_telemetry "v6w" stateW envZhi).1).fuel_level =
        stateW.fuel_level ∧
     ((simulate_realistic_telemetry "v6w" stateW envZhi).1).engine_temperature =
        stateW.engine_temperature ∧
     ((simulate_realistic_telemetry "v6w" stateW envZhi).1).speed = stateW.speed ∧
     ((simulate_realistic_telemetry "v6w" stateW envZhi).1).engine_rpm =
        max 800 (min 6500 (stateW.speed * 35 + envZhi.rpm_noise))) :=
  ⟨⟨by norm_num [stateW, envZhi], by norm_num [stateW], by norm_num [stateW],
    by norm_num [stateW]⟩,
   claim_C6_zero_dt "v6w" stateW envZhi (by norm_num [stateW, envZhi])
     (by norm_num [stateW]) (by norm_num [stateW]) (by norm_num [stateW])⟩

/-! ## Helper lemmas about the broadcast hub -/

lemma broadcast_foldl (l : List Connection) (acc : List Connection) :
    List.foldlM broadcastStep acc l = .ok (acc ++ l.filter (fun c => c.send_ok)) := by
  induction l generalizing acc with
  | nil => simp [pure, Except.pure]
  | cons c cs ih =>
    cases hc : c.send_ok with
    | true =>
        simp [List.foldlM_cons, broadcastStep, sendText, hc, ih, List.filter_cons,
          Bind.bind, Except.bind]
    | false =>
        simp [List.foldlM_cons, broadcastStep, sendText, hc, ih, List.filter_cons,
          Bind.bind, Except.bind]

/-- `broadcast` never raises: it returns normally, delivering exactly to the
connections whose send succeeds, in registration order. -/
lemma broadcast_eq (m : ConnectionManager) :
    broadcast m = .ok (m.active_connections.filter (fun c => c.send_ok)) := by
  unfold broadcast
  rw [broadcast_foldl]
  simp

lemma listRemove_eq {α : Type} [DecidableEq α] (l : List α) (x : α) :
    listRemove l x =
      if x ∈ l then Except.ok (eraseFirst l x)
      else Except.error "ValueError: list.remove(x): x not in list" := by
  induction l with
  | nil => simp [listRemove, eraseFirst]
  | cons y ys ih =>
    by_cases hyx : y = x
    · subst hyx
      simp [listRemove, eraseFirst]
    · by_cases hx : x ∈ ys
      · simp [listRemove, eraseFirst, hyx, ih, hx, Ne.symm hyx, Except.map]
      · simp [listRemove, eraseFirst, hyx, ih, hx, Ne.symm hyx, Except.map]

/-! ## Claims about the broadcast hub -/

/-- C2: with any set of registered connections among which some connection K
fails to send, `broadcast` still returns normally (the bare `except: pass`
swallows the failure), every connection whose send succeeds receives the
message, and K does not. -/
theorem claim_C2_broadcast_isolation (m : ConnectionManager) (K : Connection)
    (hK : K ∈ m.active_connections) (hfail : K.send_ok = false) :
    ∃ delivered, broadcast m = .ok delivered ∧
      (∀ c ∈ m.active_connections, c.send_ok = true → c ∈ delivered) ∧
      K ∉ delivered := by
  refine ⟨_, broadcast_eq m, fun c hc hok => List.mem_filter.mpr ⟨hc, hok⟩,
    fun hKd => ?_⟩
  have hsend := (List.mem_filter.mp hKd).2
  rw [hfail] at hsend
  exact Bool.false_ne_true hsend

theorem claim_C2_broadcast_isolation_witness :
    ((⟨1, false⟩ : Connection) ∈
        (ConnectionManager.mk [⟨0, true⟩, ⟨1, false⟩, ⟨2, true⟩]).active_connections ∧
      (⟨1, false⟩ : Connection).send_ok = false) ∧
    ∃ delivered,
      broadcast (ConnectionManager.mk [⟨0, true⟩, ⟨1, false⟩, ⟨2, true⟩]) =
        .ok delivered ∧
      (∀ c ∈ (ConnectionManager.mk
          [⟨0, true⟩, ⟨1, false⟩, ⟨2, true⟩]).active_connections,
        c.send_ok = true → c ∈ delivered) ∧
      (⟨1, false⟩ : Connection) ∉ delivered :=
  ⟨⟨by decide, rfl⟩,
   claim_C2_broadcast_isolation (ConnectionManager.mk
     [⟨0, true⟩, ⟨1, false⟩, ⟨2, true⟩]) ⟨1, false⟩ (by decide) rfl⟩

/-- C3 counterexample: detaching a connection that is not registered is not
an ignored no-op — `active_connections.remove(websocket)` raises
`ValueError`, here calling `disconnect` on an empty registry. -/
theorem claim_C3_counterexample :
    (ConnectionManager.mk []).disconnect ⟨0, true⟩ =
      .error "ValueError: list.remove(x): x not in list" := rfl

/-- C3 (amended): `disconnect` removes the first registration of the given
connection when it is present, but raises `ValueError` (Python
`list.remove`) when the connection is absent — removal is not
ignore-if-absent. -/
theorem claim_C3_detach (m : ConnectionManager) (w : Connection) :
    m.disconnect w =
      if w ∈ m.active_connections then
        .ok (ConnectionManager.mk (eraseFirst m.active_connections w))
      else .error "ValueError: list.remove(x): x not in list" := by
  unfold ConnectionManager.disconnect
  rw [listRemove_eq]
  split_ifs <;> rfl

/-! ## Helper lemmas about the simulation loop -/

lemma processVehicle_error (env : TickEnv) (acc : TickResult) (v : VehicleRec)
    (h : env.insert_ok v.id = false) :
    processVehicle env acc v = .error ("insert_one failed for " ++ v.id) := by
  unfold processVehicle
  rw [h]
  simp

lemma processVehicle_ok_shape (env : TickEnv) (acc : TickResult) (v : VehicleRec)
    (r : TickResult) (h : processVehicle env acc v = .ok r) :
    ∃ sample st,
      r = { states := dictInsert acc.states v.id st,
            all_telemetry := acc.all_telemetry ++ [sample],
            all_alerts := acc.all_alerts ++ check_telemetry_alerts sample } ∧
      sample.vehicle_id = v.id := by
  unfold processVehicle at h
  by_cases hv : env.insert_ok v.id = true
  · rw [hv] at h
    simp only [if_true] at h
    injection h with h2
    subst h2
    exact ⟨_, _, rfl, rfl⟩
  · rw [Bool.not_eq_true] at hv
    rw [hv] at h
    simp at h

lemma foldlM_ok_elim (env : TickEnv) (l : List VehicleRec) :
    ∀ (acc r : TickResult),
      List.foldlM (processVehicle env) acc l = .ok r →
      r.all_telemetry.length = acc.all_telemetry.length + l.length ∧
      ∀ t ∈ r.all_telemetry,
        t ∈ acc.all_telemetry ∨ ∃ v ∈ l, t.vehicle_id = v.id := by
  induction l with
  | nil =>
    intro acc r h
    simp only [List.foldlM_nil, pure, Except.pure, Except.ok.injEq] at h
    subst h
    simp
  | cons v vs ih =>
    intro acc r h
    rw [List.foldlM_cons] at h
    cases hp : processVehicle env acc v with
    | error e =>
      rw [hp] at h
      simp [Bind.bind, Except.bind] at h
    | ok acc' =>
      rw [hp] at h
      have h' : List.foldlM (processVehicle env) acc' vs = .ok r := by
        simpa [Bind.bind, Except.bind] using h
      obtain ⟨hlen, hmem⟩ := ih acc' r h'
      obtain ⟨sample, st, hshape, hsid⟩ := processVehicle_ok_shape env acc v acc' hp
      subst hshape
      constructor
      · simp only [List.length_append, List.length_singleton, List.length_cons,
          List.length_nil] at hlen ⊢
        omega
      · intro t ht
        rcases hmem t ht with hin | ⟨w, hw, hid⟩
        · rcases List.mem_append.mp hin with hl | hr
          · exact Or.inl hl
          · right
            refine ⟨v, List.mem_cons_self v vs, ?_⟩
            rw [List.mem_singleton.mp hr]
            exact hsid
        · exact Or.inr ⟨w, List.mem_cons_of_mem v hw, hid⟩

lemma foldlM_error_of_fail (env : TickEnv) (l : List VehicleRec) :
    ∀ acc : TickResult,
      (∃ v ∈ l, env.insert_ok v.id = false) →
      ∃ e, List.foldlM (processVehicle env) acc l = .error e := by
  induction l with
  | nil =>
    rintro acc ⟨v, hv, _⟩
    simp at hv
  | cons w ws ih =>
    rintro acc ⟨v, hv, hfail⟩
    rw [List.foldlM_cons]
    cases hpw : processVehicle env acc w with
    | error e =>
      exact ⟨e, rfl⟩
    | ok acc' =>
      have hw : env.insert_ok w.id = true := by
        by_contra hcon
        rw [Bool.not_eq_true] at hcon
        rw [processVehicle_error env acc w hcon] at hpw
        exact Except.noConfusion hpw
      have hvws : v ∈ ws := by
        rcases List.mem_cons.mp hv with rfl | hmem
        · rw [hw] at hfail
          exact absurd hfail (by simp)
        · exact hmem
      obtain ⟨e, he⟩ := ih acc' ⟨v, hvws, hfail⟩
      refine ⟨e, ?_⟩
      simpa [Bind.bind, Except.bind] using he

lemma websocket_tick_ok_elim (vehicles : List VehicleRec)
    (states : List (String × VehicleState)) (env : TickEnv)
    (r : TickResult) (msg : Message)
    (h : websocket_tick vehicles states env = .ok (r, msg)) :
    List.foldlM (processVehicle env)
      { states := states, all_telemetry := [], all_alerts := [] }
      (fetch_active_vehicles vehicles) = .ok r ∧
    msg = { type := "telemetry_update", timestamp := env.batch_time,
            data := r.all_telemetry, alerts := r.all_alerts } := by
  simp only [websocket_tick, Bind.bind] at h
  cases hf : List.foldlM (processVehicle env)
      { states := states, all_telemetry := [], all_alerts := [] }
      (fetch_active_vehicles vehicles) with
  | error e =>
    rw [hf] at h
    simp [Except.bind] at h
  | ok r' =>
    rw [hf] at h
    simp only [Except.bind, Except.ok.injEq, Prod.mk.injEq] at h
    obtain ⟨hr, hm⟩ := h
    subst hr
    exact ⟨rfl, hm.symm⟩

/-! ## Claims about the simulation loop -/

/-- C1 counterexample: the "simulation loop" is the body of the
per-connection `websocket_telemetry` handler, so the number of running tick
loops equals the number of attached connections — with zero viewers no loop
instance exists and no tick executes or persists samples, contradicting
"ticks still run with zero viewers". -/
theorem claim_C1_counterexample :
    running_tick_loops (ConnectionManager.mk []) = 0 := rfl

/-- C1 (amended): while a viewer is attached, each successful iteration of
its handler loop generates the batch and hands it to `broadcast` exactly once
(the iteration's publish trace is the one-element list holding that tick's
message); but the loop is per-connection, so with zero viewers no tick loop
runs at all. -/
theorem claim_C1_publish_once_per_tick (vehicles : List VehicleRec)
    (states : List (String × VehicleState)) (env : TickEnv)
    (m : ConnectionManager) (r : TickResult) (msg : Message)
    (h : websocket_tick vehicles states env = .ok (r, msg)) :
    websocket_loop_iteration vehicles states env m =
      .ok (r, [msg], m.active_connections.filter (fun c => c.send_ok)) ∧
    running_tick_loops (ConnectionManager.mk []) = 0 := by
  refine ⟨?_, rfl⟩
  unfold websocket_loop_iteration
  rw [h, broadcast_eq]
  rfl

theorem claim_C1_publish_once_per_tick_witness :
    websocket_tick [] [] tickEnvOk =
      .ok (⟨[], [], []⟩, ⟨"telemetry_update", 0, [], []⟩) ∧
    (websocket_loop_iteration [] [] tickEnvOk
        (ConnectionManager.mk [⟨0, true⟩]) =
      .ok (⟨[], [], []⟩, [⟨"telemetry_update", 0, [], []⟩],
        (ConnectionManager.mk [⟨0, true⟩]).active_connections.filter
          (fun c => c.send_ok)) ∧
      running_tick_loops (ConnectionManager.mk []) = 0) :=
  ⟨rfl, claim_C1_publish_once_per_tick [] [] tickEnvOk
    (ConnectionManager.mk [⟨0, true⟩]) ⟨[], [], []⟩
    ⟨"telemetry_update", 0, [], []⟩ rfl⟩

/-- C4 counterexample: with two active vehicles and every insert failing, the
tick aborts at the first vehicle: the body returns the propagated insert
exception (so the second vehicle is never simulated), and the handler's loop
iteration errors before any broadcast call. -/
theorem claim_C4_counterexample :
    websocket_tick [⟨"a", true⟩, ⟨"b", true⟩] [] tickEnvBad =
      .error ("insert_one failed for " ++ "a") ∧
    websocket_loop_iteration [⟨"a", true⟩, ⟨"b", true⟩] [] tickEnvBad
        (ConnectionManager.mk [⟨0, true⟩]) =
      .error ("insert_one failed for " ++ "a") :=
  ⟨rfl, rfl⟩

/-- C4 (amended): a storage append failure is not swallowed — when the insert
fails for some vehicle of the tick's active set, the tick body raises: the
fold over vehicles aborts, no batch message is assembled, and the handler's
loop iteration errors without reaching the broadcast call. -/
theorem claim_C4_insert_failure_aborts (vehicles : List VehicleRec)
    (states : List (String × VehicleState)) (env : TickEnv)
    (m : ConnectionManager)
    (h : ∃ v ∈ fetch_active_vehicles vehicles, env.insert_ok v.id = false) :
    (∃ e, websocket_tick vehicles states env = .error e) ∧
    (∃ e, websocket_loop_iteration vehicles states env m = .error e) := by
  obtain ⟨e, he⟩ := foldlM_error_of_fail env (fetch_active_vehicles vehicles)
    { states := states, all_telemetry := [], all_alerts := [] } h
  have ht : websocket_tick vehicles states env = .error e := by
    simp only [websocket_tick]
    rw [he]
    rfl
  refine ⟨⟨e, ht⟩, ⟨e, ?_⟩⟩
  unfold websocket_loop_iteration
  rw [ht]
  rfl

theorem claim_C4_insert_failure_aborts_witness :
    (∃ v ∈ fetch_active_vehicles [⟨"a", true⟩, ⟨"b", true⟩],
      tickEnvBad.insert_ok v.id = false) ∧
    ((∃ e, websocket_tick [⟨"a", true⟩, ⟨"b", true⟩] [] tickEnvBad = .error e) ∧
     (∃ e, websocket_loop_iteration [⟨"a", true⟩, ⟨"b", true⟩] [] tickEnvBad
        (ConnectionManager.mk []) = .error e)) :=
  ⟨⟨⟨"a", true⟩, by decide, rfl⟩,
   claim_C4_insert_failure_aborts [⟨"a", true⟩, ⟨"b", true⟩] [] tickEnvBad
     (ConnectionManager.mk []) ⟨⟨"a", true⟩, by decide, rfl⟩⟩

/-! ## Helper lemmas about vehicle deletion -/

lemma setInactiveFirst_matched (l : List VehicleRec) (vid : String)
    (h : vid ∈ l.map VehicleRec.id) : (setInactiveFirst l vid).2 = true := by
  induction l with
  | nil => simp at h
  | cons w ws ih =>
    by_cases hw : w.id = vid
    · simp [setInactiveFirst, hw]
    · simp only [List.map_cons, List.mem_cons] at h
      rcases h with h | h
      · exact absurd h.symm hw
      · simp [setInactiveFirst, hw, ih h]

lemma setInactiveFirst_inactive (l : List VehicleRec) (vid : String)
    (hnd : (l.map VehicleRec.id).Nodup) :
    ∀ v ∈ (setInactiveFirst l vid).1, v.id = vid → v.is_active = false := by
  induction l with
  | nil =>
    intro v hv
    simp [setInactiveFirst] at hv
  | cons w ws ih =>
    simp only [List.map_cons, List.nodup_cons] at hnd
    intro v hv hvid
    by_cases hw : w.id = vid
    · simp only [setInactiveFirst, if_pos hw, List.mem_cons] at hv
      rcases hv with rfl | hv
      · rfl
      · exfalso
        apply hnd.1
        rw [hw, ← hvid]
        exact List.mem_map_of_mem VehicleRec.id hv
    · simp only [setInactiveFirst, if_neg hw, List.mem_cons] at hv
      rcases hv with rfl | hv
      · exact absurd hvid hw
      · exact ih hnd.2 v hv hvid

lemma dictLookup_delete (m : List (String × VehicleState)) (k : String) :
    dictLookup (dictDelete m k) k = none := by
  unfold dictLookup dictDelete
  have hf : List.find? (fun p => p.1 = k)
      (m.filter (fun p => ¬ p.1 = k)) = none := by
    rw [List.find?_eq_none]
    intro x hx
    have hxk := List.of_mem_filter hx
    simp only [decide_not, Bool.not_eq_true', decide_eq_false_iff_not] at hxk
    simp [hxk]
  rw [hf]
  rfl

lemma dictDelete_length (m : List (String × VehicleState)) (k : String)
    (hks : (m.map Prod.fst).Nodup) (hmem : (dictLookup m k).isSome = true) :
    (dictDelete m k).length + 1 = m.length := by
  induction m with
  | nil => simp [dictLookup] at hmem
  | cons p ps ih =>
    simp only [List.map_cons, List.nodup_cons] at hks
    by_cases hp : p.1 = k
    · have hrest : dictDelete ps k = ps := by
        unfold dictDelete
        apply List.filter_eq_self.mpr
        intro q hq
        have : ¬ q.1 = k := by
          intro hqk
          apply hks.1
          rw [hp, ← hqk]
          exact List.mem_map_of_mem Prod.fst hq
        simp [this]
      have hdrop : dictDelete (p :: ps) k = ps := by
        unfold dictDelete at hrest ⊢
        rw [List.filter_cons]
        simp [hp, hrest]
        intro a b hab hak
        subst hak
        exact hks.1 (by rw [hp]; exact List.mem_map_of_mem Prod.fst hab)
      rw [hdrop]
      simp
    · have hm' : (dictLookup ps k).isSome = true := by
        unfold dictLookup at hmem ⊢
        rw [List.find?_cons] at hmem
        simp only [hp] at hmem
        simpa using hmem
      have hkeep : dictDelete (p :: ps) k = p :: dictDelete ps k := by
        unfold dictDelete
        rw [List.filter_cons]
        simp [hp]
      rw [hkeep]
      simp only [List.length_cons]
      rw [← ih hks.2 hm']

/-- C8: deleting a vehicle whose state entry exists discards that entry: the
deletion succeeds, the entry is gone from the state mapping, the mapping
strictly shrinks by exactly one entry, the vehicle is absent from the next
tick's active set, and no sample of any subsequent successful tick carries
its identity. -/
theorem claim_C8_delete_discards_state (s : ServerState) (vid : String)
    (hstate : (dictLookup s.vehicle_states vid).isSome = true)
    (hkeys : (s.vehicle_states.map Prod.fst).Nodup)
    (hdb : vid ∈ s.vehicles.map VehicleRec.id)
    (hids : (s.vehicles.map VehicleRec.id).Nodup) :
    ∃ s', delete_vehicle s vid = .ok s' ∧
      dictLookup s'.vehicle_states vid = none ∧
      s'.vehicle_states.length + 1 = s.vehicle_states.length ∧
      (∀ v ∈ fetch_active_vehicles s'.vehicles, v.id ≠ vid) ∧
      (∀ env r msg, websocket_tick s'.vehicles s'.vehicle_states env = .ok (r, msg) →
        ∀ t ∈ msg.data, t.vehicle_id ≠ vid) := by
  have hmatch := setInactiveFirst_matched s.vehicles vid hdb
  refine ⟨{ vehicles := (setInactiveFirst s.vehicles vid).1,
            vehicle_states := dictDelete s.vehicle_states vid }, ?_, ?_, ?_, ?_, ?_⟩
  · simp only [delete_vehicle, hmatch, hstate]
    simp
  · exact dictLookup_delete s.vehicle_states vid
  · exact dictDelete_length s.vehicle_states vid hkeys hstate
  · intro v hv hveq
    have hvf : v ∈ (setInactiveFirst s.vehicles vid).1.filter
        (fun x => x.is_active) := List.take_subset _ _ hv
    have hvmem := (List.mem_filter.mp hvf).1
    have hvact := (List.mem_filter.mp hvf).2
    have hinact := setInactiveFirst_inactive s.vehicles vid hids v hvmem hveq
    simp [hinact] at hvact
  · intro env r msg htick t ht hteq
    obtain ⟨hfold, hmsg⟩ := websocket_tick_ok_elim _ _ env r msg htick
    obtain ⟨_, hmem⟩ := foldlM_ok_elim env _ _ r hfold
    rw [hmsg] at ht
    rcases hmem t ht with hnil | ⟨w, hw, hid⟩
    · simp at hnil
    · have hvf : w ∈ (setInactiveFirst s.vehicles vid).1.filter
          (fun x => x.is_active) := List.take_subset _ _ hw
      have hvmem := (List.mem_filter.mp hvf).1
      have hvact := (List.mem_filter.mp hvf).2
      have hinact := setInactiveFirst_inactive s.vehicles vid hids w hvmem
        (hteq ▸ hid.symm)
      simp [hinact] at hvact

theorem claim_C8_delete_discards_state_witness :
    ((dictLookup serverW.vehicle_states "a").isSome = true ∧
     (serverW.vehicle_states.map Prod.fst).Nodup ∧
     "a" ∈ serverW.vehicles.map VehicleRec.id ∧
     (serverW.vehicles.map VehicleRec.id).Nodup) ∧
    (∃ s', delete_vehicle serverW "a" = .ok s' ∧
      dictLookup s'.vehicle_states "a" = none ∧
      s'.vehicle_states.length + 1 = serverW.vehicle_states.length ∧
      (∀ v ∈ fetch_active_vehicles s'.vehicles, v.id ≠ "a") ∧
      (∀ env r msg, websocket_tick s'.vehicles s'.vehicle_states env = .ok (r, msg) →
        ∀ t ∈ msg.data, t.vehicle_id ≠ "a")) :=
  ⟨⟨rfl, by decide, by decide, by decide⟩,
   claim_C8_delete_discards_state serverW "a" rfl (by decide) (by decide)
     (by decide)⟩

/-- C10: the tick's active-vehicle fetch and the GET /vehicles listing are
both capped at 100 documents, so a successful tick's batch holds at most 100
samples — exactly one per fetched vehicle — and an active vehicle beyond the
first 100 (whose id none of the fetched vehicles shares) contributes no
sample to the batch. -/
theorem claim_C10_batch_capped (vehicles : List VehicleRec)
    (states : List (String × VehicleState)) (env : TickEnv)
    (r : TickResult) (msg : Message)
    (h : websocket_tick vehicles states env = .ok (r, msg)) :
    msg.data.length ≤ 100 ∧
    (get_vehicles vehicles).length ≤ 100 ∧
    msg.data.length = (fetch_active_vehicles vehicles).length ∧
    (∀ v ∈ (vehicles.filter (fun x => x.is_active)).drop 100,
      (∀ w ∈ fetch_active_vehicles vehicles, w.id ≠ v.id) →
      ∀ t ∈ msg.data, t.vehicle_id ≠ v.id) := by
  obtain ⟨hfold, hmsg⟩ := websocket_tick_ok_elim vehicles states env r msg h
  obtain ⟨hlen, hmem⟩ := foldlM_ok_elim env _ _ r hfold
  have hdata : msg.data = r.all_telemetry := by rw [hmsg]
  simp only [List.length_nil, Nat.zero_add] at hlen
  have hflen : (fetch_active_vehicles vehicles).length ≤ 100 := by
    unfold fetch_active_vehicles
    simpa using List.length_take_le 100 _
  refine ⟨?_, ?_, ?_, ?_⟩
  · rw [hdata, hlen]
    exact hflen
  · unfold get_vehicles
    exact hflen
  · rw [hdata, hlen]
  · intro v hv hwne t ht hteq
    rw [hdata] at ht
    rcases hmem t ht with hnil | ⟨w, hw, hid⟩
    · simp at hnil
    · exact hwne w hw (hid ▸ hteq)

theorem claim_C10_batch_capped_witness :
    websocket_tick [] [] tickEnvOk =
      .ok (⟨[], [], []⟩, ⟨"telemetry_update", 0, [], []⟩) ∧
    ((⟨"telemetry_update", 0, [], []⟩ : Message).data.length ≤ 100 ∧
     (get_vehicles []).length ≤ 100 ∧
     (⟨"telemetry_update", 0, [], []⟩ : Message).data.length =
       (fetch_active_vehicles []).length ∧
     (∀ v ∈ (([] : List VehicleRec).filter (fun x => x.is_active)).drop 100,
       (∀ w ∈ fetch_active_vehicles [], w.id ≠ v.id) →
       ∀ t ∈ (⟨"telemetry_update", 0, [], []⟩ : Message).data,
         t.vehicle_id ≠ v.id)) :=
  ⟨rfl, claim_C10_batch_capped [] [] tickEnvOk ⟨[], [], []⟩
    ⟨"telemetry_update", 0, [], []⟩ rfl⟩
